import Mathlib

/-!
Verification of the Service Bus purge scripts
(`src/functions/scripts/purge.py` and `src/functions/scripts/purge_dlq.py`).

The Python code is shallowly embedded: strings are Lean `String`s operated
on through executable, structurally recursive helpers that mirror the
Python `str` methods used by the scripts; the Service Bus receiver is an
abstract pure function `σ → Int → Nat × σ` returning the number of
messages delivered for a requested maximum; the drain loops are embedded
as fuel-indexed recursions returning `none` when the fuel runs out before
the Python loop would have terminated.
-/

namespace Purge

/-! ## Python string primitives -/

/-- Models Python `str.split(sep)` for a one-character separator:
splits on every occurrence, keeping empty segments, and always
returns at least one element. -/
def pySplit (sep : Char) : List Char → List (List Char)
  | [] => [[]]
  | c :: cs =>
    match pySplit sep cs with
    | [] => []
    | h :: t => if c = sep then [] :: h :: t else (c :: h) :: t

/-- String-level wrapper for `pySplit`. -/
def pySplitStr (s : String) (sep : Char) : List String :=
  (pySplit sep s.data).map String.mk

/-- Boolean list-prefix test, models Python `str.startswith` on
the underlying character lists. -/
def startsWithL : List Char → List Char → Bool
  | _, [] => true
  | [], _ :: _ => false
  | a :: as, b :: bs => a = b && startsWithL as bs

/-- Models Python `str.strip()`: drops leading and trailing whitespace. -/
def pyStrip (s : String) : String :=
  String.mk (((s.data.reverse.dropWhile Char.isWhitespace).reverse).dropWhile Char.isWhitespace)

/-- Models Python `str.lower()` on the ASCII letters occurring here. -/
def pyLower (s : String) : String :=
  String.mk (s.data.map Char.toLower)

/-- Models Python `str.rstrip("/")`: drops trailing slash characters. -/
def pyRstripSlash (s : String) : String :=
  String.mk ((s.data.reverse.dropWhile (fun c => c = '/')).reverse)

/-- Models Python `part.split(sep, 1)[1]`: everything after the first
occurrence of `sep`.  Total; the scripts only reach it when `sep` occurs. -/
def afterFirstChar : List Char → Char → List Char
  | [], _ => []
  | c :: cs, sep => if c = sep then cs else afterFirstChar cs sep

/-- Models Python `s.split(sep)[0]`: everything before the first
occurrence of `sep` (the whole string if `sep` is absent). -/
def beforeFirstChar : List Char → Char → List Char
  | [], _ => []
  | c :: cs, sep => if c = sep then [] else c :: beforeFirstChar cs sep

/-- Fuel-indexed worker for `pyReplace`; the fuel starts at the length of
the subject so it never runs out. -/
def pyReplaceAux (pat repl : List Char) : Nat → List Char → List Char
  | _, [] => []
  | 0, l => l
  | fuel + 1, c :: cs =>
    if !pat.isEmpty && startsWithL (c :: cs) pat then
      repl ++ pyReplaceAux pat repl fuel (List.drop (pat.length - 1) cs)
    else
      c :: pyReplaceAux pat repl fuel cs

/-- Models Python `str.replace(pat, repl)`: replaces every occurrence. -/
def pyReplace (s pat repl : String) : String :=
  String.mk (pyReplaceAux pat.data repl.data s.data.length s.data)

/-- Models Python truthiness of an optional string
(`None` and the empty string are falsy). -/
def strTruthy : Option String → Bool
  | none => false
  | some s => s != ""

/-- Models Python `x or d` for an optional string `x`. -/
def pyOrStr (x : Option String) (d : String) : String :=
  if strTruthy x then x.getD d else d

/-- Models Python truthiness of an optional integer
(`None` and `0` are falsy, every other integer truthy). -/
def pyTruthy : Option Int → Bool
  | none => false
  | some n => n != 0

/-! ## Configuration and errors -/

instance {ε α : Type} [DecidableEq ε] [DecidableEq α] : DecidableEq (Except ε α) := fun x y =>
  match x, y with
  | Except.ok a, Except.ok b =>
    if h : a = b then isTrue (by rw [h]) else isFalse (by simp [h])
  | Except.error a, Except.error b =>
    if h : a = b then isTrue (by rw [h]) else isFalse (by simp [h])
  | Except.ok _, Except.error _ => isFalse (by simp)
  | Except.error _, Except.ok _ => isFalse (by simp)

/-- Fatal configuration/auth errors raised by the scripts:
`malformedConnectionString` is the `ValueError` raised by
`extract_namespace_from_connstr`, `missingNamespace` the `SystemExit`
raised by `to_fqdn`, and `authUnavailable` the `SystemExit` raised by
`purge_dlq.py:get_client` when `azure.identity` could not be imported. -/
inductive PurgeError
  | malformedConnectionString
  | missingNamespace
  | authUnavailable
deriving DecidableEq

/-- The environment configuration consumed by `purge.py`:
`SERVICE_BUS_CONNECTION_STR`, and the resolved
`SERVICE_BUS_NAMESPACE_FQDN or SERVICE_BUS_NAMESPACE` value. -/
structure PurgeConfig where
  connStr : Option String
  namespaceFqdn : Option String
deriving DecidableEq

/-- Auth mode chosen by `get_client`, as observable in its log line. -/
inductive AuthMode
  | sas
  | aad
  | aadInteractive
deriving DecidableEq

/-! ## Connection resolution (purge.py lines 70-103) -/

/-- Embeds `purge.py:extract_namespace_from_connstr` (lines 70-76):
scans the `;`-separated parts for the first whose stripped, lowered form
starts with `endpoint=`; takes the text after the first `=`, strips it,
deletes every `sb://`, drops trailing `/`, and returns the text before
the first `.`; raises `ValueError` when no part matches. -/
def extract_namespace_from_connstr (conn_str : String) : Except PurgeError String :=
  match (pySplitStr conn_str ';').find?
      (fun part => startsWithL (pyLower (pyStrip part)).data "endpoint=".data) with
  | some part =>
    let endpoint := pyStrip (String.mk (afterFirstChar part.data '='))
    let endpoint := pyRstripSlash (pyReplace endpoint "sb://" "")
    Except.ok (String.mk (beforeFirstChar endpoint.data '.'))
  | none => Except.error PurgeError.malformedConnectionString

/-- Embeds `purge.py:to_fqdn` (lines 79-83): strips the argument, exits
with an error when it is empty, and appends the standard domain suffix
when the name contains no dot. -/
def to_fqdn (nsArg : String) : Except PurgeError String :=
  let ns := pyStrip nsArg
  if ns = "" then Except.error PurgeError.missingNamespace
  else Except.ok (if ns.data.contains '.' then ns else ns ++ ".servicebus.windows.net")

/-- Embeds `purge.py:get_client` (lines 86-97): the SAS connection string
takes precedence when truthy, otherwise the namespace identity path is
used; the result records the auth mode and the log line printed. -/
def get_client (cfg : PurgeConfig) : Except PurgeError (AuthMode × String) :=
  if strTruthy cfg.connStr then
    match extract_namespace_from_connstr (cfg.connStr.getD "") with
    | Except.error e => Except.error e
    | Except.ok ns => Except.ok (AuthMode.sas, "Auth: SAS | Namespace: " ++ ns)
  else
    match to_fqdn (pyOrStr cfg.namespaceFqdn "") with
    | Except.error e => Except.error e
    | Except.ok fqdn =>
      Except.ok (AuthMode.aad, "Auth: AAD (DefaultAzureCredential) | Namespace: " ++ fqdn)

/-- Embeds `purge.py:namespace_label` (lines 100-103). -/
def namespace_label (cfg : PurgeConfig) : Except PurgeError String :=
  if strTruthy cfg.connStr then
    extract_namespace_from_connstr (cfg.connStr.getD "")
  else
    match to_fqdn (pyOrStr cfg.namespaceFqdn "") with
    | Except.error e => Except.error e
    | Except.ok fqdn => Except.ok (String.mk (beforeFirstChar fqdn.data '.'))

/-! ## Drain engine (purge.py lines 107-170, purge_dlq.py lines 118-147) -/

/-- One call to `receiver.receive_messages`, as recorded by the embedded
loops: the running total before the call, the `max_message_count`
requested, and the number of messages actually delivered. -/
structure ReceiveCall where
  totalBefore : Nat
  requested : Int
  delivered : Nat
deriving DecidableEq

/-- How a drain loop terminated: `limitReached` is the
`if limit and total >= limit: break`, `zeroBatch` the
`if batch <= 0: break`, and `emptyBatch` the `if not msgs: break`. -/
inductive DrainEnd
  | limitReached
  | zeroBatch
  | emptyBatch
deriving DecidableEq

/-- Result of a terminated drain loop: the final total, the receive
calls issued in order, the final receiver state, and the reason the
loop stopped. -/
structure LoopOut (σ : Type) where
  total : Nat
  trace : List ReceiveCall
  state : σ
  ended : DrainEnd
deriving DecidableEq

/-- Embeds the `while True` loop of `purge.py:purge_active`
(lines 152-168).  `recv s b` models `receiver.receive_messages` with
`max_message_count = b`: it returns the number of messages delivered and
the next receiver state.  The fuel bounds the number of iterations the
embedding is willing to unfold; `none` means the Python loop would still
be running after that many iterations. -/
def purge_active_loop {σ : Type} (recv : σ → Int → Nat × σ) (batchSize : Int)
    (limit : Option Int) : Nat → σ → Nat → List ReceiveCall → Option (LoopOut σ)
  | 0, _, _, _ => none
  | fuel + 1, s, total, trace =>
    if pyTruthy limit = true ∧ limit.getD 0 ≤ (total : Int) then
      some ⟨total, trace, s, DrainEnd.limitReached⟩
    else
      let batch : Int :=
        if pyTruthy limit = false then batchSize
        else min batchSize (limit.getD 0 - (total : Int))
      if batch ≤ 0 then some ⟨total, trace, s, DrainEnd.zeroBatch⟩
      else
        let k := (recv s batch).1
        if k = 0 then
          some ⟨total, trace ++ [⟨total, batch, k⟩], (recv s batch).2, DrainEnd.emptyBatch⟩
        else
          purge_active_loop recv batchSize limit fuel (recv s batch).2 (total + k)
            (trace ++ [⟨total, batch, k⟩])

/-- Embeds the `while True` loop of `purge.py:purge_dlq` (lines 122-130),
which is also the loop of `purge_dlq.py:purge_dlq` (lines 135-145):
request `BATCH_SIZE` messages, stop on an empty batch, otherwise add the
batch length to the total and repeat. -/
def purge_dlq_loop {σ : Type} (recv : σ → Int → Nat × σ) (batchSize : Int) :
    Nat → σ → Nat → List ReceiveCall → Option (LoopOut σ)
  | 0, _, _, _ => none
  | fuel + 1, s, total, trace =>
    let k := (recv s batchSize).1
    if k = 0 then
      some ⟨total, trace ++ [⟨total, batchSize, k⟩], (recv s batchSize).2, DrainEnd.emptyBatch⟩
    else
      purge_dlq_loop recv batchSize fuel (recv s batchSize).2 (total + k)
        (trace ++ [⟨total, batchSize, k⟩])

/-- Deterministic receiver model: the state is the number of messages
available in the backing queue, all deliverable within one wait window;
a receive call delivers `min requested available` of them. -/
def queueReceive (q : Nat) (maxCount : Int) : Nat × Nat :=
  (min maxCount.toNat q, q - min maxCount.toNat q)

/-- Embeds `purge.py:purge_active` (lines 136-170): resolve the
namespace label, resolve the client, then run the active drain loop
through the receiver model. -/
def purge_active_run {σ : Type} (cfg : PurgeConfig) (recv : σ → Int → Nat × σ)
    (batchSize : Int) (_topic _subscription : String) (limit : Option Int)
    (fuel : Nat) (s : σ) : Except PurgeError (Option (LoopOut σ)) :=
  match namespace_label cfg with
  | Except.error e => Except.error e
  | Except.ok _ =>
    match get_client cfg with
    | Except.error e => Except.error e
    | Except.ok _ => Except.ok (purge_active_loop recv batchSize limit fuel s 0 [])

/-- Embeds `purge.py:purge_dlq` (lines 107-132): resolve the namespace
label, resolve the client, then run the dead-letter drain loop. -/
def purge_dlq_run {σ : Type} (cfg : PurgeConfig) (recv : σ → Int → Nat × σ)
    (batchSize : Int) (_topic _subscription : String) (fuel : Nat) (s : σ) :
    Except PurgeError (Option (LoopOut σ)) :=
  match namespace_label cfg with
  | Except.error e => Except.error e
  | Except.ok _ =>
    match get_client cfg with
    | Except.error e => Except.error e
    | Except.ok _ => Except.ok (purge_dlq_loop recv batchSize fuel s 0 [])

/-- Embeds the dispatch of `purge.py:__main__` (lines 205-209):
`--active` runs `purge_active` with the parsed `--limit`, otherwise
`purge_dlq` runs and the parsed limit is never passed to it. -/
def main_dispatch {σ : Type} (cfg : PurgeConfig) (recv : σ → Int → Nat × σ)
    (batchSize : Int) (_topic _subscription : String) (active : Bool)
    (limit : Option Int) (fuel : Nat) (s : σ) : Except PurgeError (Option (LoopOut σ)) :=
  if active then purge_active_run cfg recv batchSize _topic _subscription limit fuel s
  else purge_dlq_run cfg recv batchSize _topic _subscription fuel s

/-! ## purge_dlq.py auth (lines 50-116) -/

/-- Environment of `purge_dlq.py`: the two connection settings, whether
the `azure.identity` import succeeded (`USE_AAD`), and whether the
`DefaultAzureCredential` construction path succeeds without raising. -/
structure DlqEnv where
  connStr : Option String
  namespaceFqdn : Option String
  useAad : Bool
  defaultCredOk : Bool
deriving DecidableEq

/-- A credential construction attempted by `purge_dlq.py:get_client`:
`DefaultAzureCredential(exclude_interactive_browser_credential=True)`
or the fallback `InteractiveBrowserCredential()`. -/
inductive CredAttempt
  | defaultNoBrowser
  | interactiveBrowser
deriving DecidableEq

/-- Embeds `purge_dlq.py:get_client` (lines 90-110) together with the
module-level `USE_AAD` flag (lines 50-54).  Returns the resolution
result (auth mode and log line) paired with the ordered list of
credential constructions attempted on the identity path. -/
def dlq_get_client (env : DlqEnv) : Except PurgeError (AuthMode × String) × List CredAttempt :=
  if strTruthy env.connStr then
    (match extract_namespace_from_connstr (env.connStr.getD "") with
     | Except.error e => Except.error e
     | Except.ok ns =>
       Except.ok (AuthMode.sas, "Auth: SAS connection string | Namespace: " ++ ns), [])
  else if env.useAad = false then
    (Except.error PurgeError.authUnavailable, [])
  else
    match to_fqdn (pyOrStr env.namespaceFqdn "") with
    | Except.error e => (Except.error e, [])
    | Except.ok fqdn =>
      if env.defaultCredOk then
        (Except.ok (AuthMode.aad, "Auth: Entra ID (DefaultAzureCredential) | Namespace: " ++ fqdn),
         [CredAttempt.defaultNoBrowser])
      else
        (Except.ok (AuthMode.aadInteractive,
           "Auth: Entra ID (InteractiveBrowserCredential) | Namespace: " ++ fqdn),
         [CredAttempt.defaultNoBrowser, CredAttempt.interactiveBrowser])

/-! ## Helper lemmas -/

/-- The deterministic receiver never delivers more than requested. -/
theorem queueReceive_le (q : Nat) (b : Int) : (queueReceive q b).1 ≤ b.toNat := by
  simp [queueReceive]

/-- List-prefix test is stable under extending the subject on the right. -/
theorem startsWithL_append (p : List Char) :
    ∀ x y : List Char, startsWithL x p = true → startsWithL (x ++ y) p = true := by
  induction p with
  | nil => intro x y _; cases x ++ y <;> simp [startsWithL]
  | cons b bs ih =>
    intro x y h
    cases x with
    | nil => simp [startsWithL] at h
    | cons a as =>
      simp only [startsWithL, Bool.and_eq_true] at h ⊢
      exact ⟨h.1, ih as y h.2⟩

/-- A `limit` of `some 0` is falsy in Python, so the active loop behaves
exactly as with no limit at all. -/
theorem active_loop_zero_eq_none {σ : Type} (recv : σ → Int → Nat × σ) (b : Int) :
    ∀ (fuel : Nat) (s : σ) (total : Nat) (trace : List ReceiveCall),
    purge_active_loop recv b (some 0) fuel s total trace
      = purge_active_loop recv b none fuel s total trace := by
  intro fuel
  induction fuel with
  | zero => intro s total trace; rfl
  | succ n ih =>
    intro s total trace
    rw [purge_active_loop, purge_active_loop]
    simp only [pyTruthy, Option.getD]
    norm_num
    split
    · rfl
    · split
      · rfl
      · exact ih _ _ _

/-- Invariant of the recorded receive calls: each one requested exactly
what line 156 of purge.py computes from the total accumulated before it. -/
theorem active_loop_trace_requested {σ : Type} (recv : σ → Int → Nat × σ)
    (b : Int) (limit : Option Int) :
    ∀ (fuel : Nat) (s : σ) (total : Nat) (trace : List ReceiveCall) (out : LoopOut σ),
    (∀ e ∈ trace, e.requested = if pyTruthy limit = true
        then min b (limit.getD 0 - (e.totalBefore : Int)) else b) →
    purge_active_loop recv b limit fuel s total trace = some out →
    ∀ e ∈ out.trace, e.requested = if pyTruthy limit = true
        then min b (limit.getD 0 - (e.totalBefore : Int)) else b := by
  intro fuel
  induction fuel with
  | zero => intro s total trace out h hloop; cases hloop
  | succ n ih =>
    intro s total trace out h hloop
    have hP : ∀ (req : Int) (k : Nat),
        (req = if pyTruthy limit = true then min b (limit.getD 0 - (total : Int)) else b) →
        ∀ e ∈ trace ++ [(⟨total, req, k⟩ : ReceiveCall)],
        e.requested = if pyTruthy limit = true
          then min b (limit.getD 0 - (e.totalBefore : Int)) else b := by
      intro req k hreq e he
      rcases List.mem_append.mp he with h1 | h2
      · exact h e h1
      · rcases List.mem_singleton.mp h2 with rfl
        simpa using hreq
    simp only [purge_active_loop] at hloop
    rcases Bool.eq_false_or_eq_true (pyTruthy limit) with hb | hb
    · simp only [hb] at hloop
      norm_num at hloop
      split at hloop
      · cases hloop; exact h
      · split at hloop
        · cases hloop; exact h
        · split at hloop
          · cases hloop; exact hP _ _ (by simp [hb])
          · exact ih _ _ _ _ (hP _ _ (by simp [hb])) hloop
    · simp only [hb] at hloop
      norm_num at hloop
      split at hloop
      · cases hloop; exact h
      · split at hloop
        · cases hloop; exact hP b _ (by simp [hb])
        · exact ih _ _ _ _ (hP b _ (by simp [hb])) hloop

/-- Safety invariant of the active loop: once the running total is at
most a positive limit, any terminated run keeps it at most the limit,
for every receiver that never delivers more than requested. -/
theorem active_loop_le_limit {σ : Type} (recv : σ → Int → Nat × σ)
    (hrecv : ∀ s b, (recv s b).1 ≤ b.toNat) (b L : Int) (hL : 0 < L) :
    ∀ (fuel : Nat) (s : σ) (total : Nat) (trace : List ReceiveCall),
    (total : Int) ≤ L →
    ∀ out : LoopOut σ, purge_active_loop recv b (some L) fuel s total trace = some out →
    (out.total : Int) ≤ L := by
  intro fuel
  induction fuel with
  | zero => intro s total trace htot out hloop; cases hloop
  | succ n ih =>
    intro s total trace htot out hloop
    have hT : pyTruthy (some L) = true := by
      simp only [pyTruthy, bne_iff_ne, ne_eq]
      omega
    simp only [purge_active_loop, hT, Option.getD_some] at hloop
    norm_num at hloop
    split at hloop
    · cases hloop; exact htot
    · split at hloop
      · cases hloop; exact htot
      · split at hloop
        · cases hloop; exact htot
        · refine ih _ _ _ ?_ out hloop
          have hk := hrecv s (min b (L - (total : Int)))
          omega

/-- Completeness of the active loop on the deterministic queue: with a
positive batch size, a positive limit, at least `limit` messages
available and enough fuel, the loop reaches the limit exactly. -/
theorem active_loop_det_reaches_limit (b L : Int) (hb : 1 ≤ b) (hL : 0 < L) :
    ∀ (fuel q total : Nat) (trace : List ReceiveCall),
    total ≤ L.toNat → L.toNat - total ≤ q → L.toNat - total < fuel →
    ∃ out : LoopOut Nat,
      purge_active_loop queueReceive b (some L) fuel q total trace = some out ∧
      out.total = L.toNat ∧ out.ended = DrainEnd.limitReached := by
  intro fuel
  induction fuel with
  | zero => intro q total trace h1 h2 h3; omega
  | succ n ih =>
    intro q total trace h1 h2 h3
    have hT : pyTruthy (some L) = true := by
      simp only [pyTruthy, bne_iff_ne, ne_eq]
      omega
    simp only [purge_active_loop, hT, Option.getD_some, queueReceive]
    norm_num
    by_cases hdone : L ≤ (total : Int)
    · rw [if_pos hdone]
      refine ⟨⟨total, trace, q, DrainEnd.limitReached⟩, rfl, ?_, rfl⟩
      show total = L.toNat
      omega
    · rw [if_neg hdone, if_neg (by omega : ¬ (b ≤ 0 ∨ L ≤ (total : Int))),
        if_neg (by omega : ¬ ((b ≤ 0 ∨ L ≤ (total : Int)) ∨ q = 0))]
      exact ih _ _ _ (by omega) (by omega) (by omega)

/-- Every terminated dead-letter drain ends because an empty batch was
observed. -/
theorem dlq_loop_ends_empty {σ : Type} (recv : σ → Int → Nat × σ) (b : Int) :
    ∀ (fuel : Nat) (s : σ) (total : Nat) (trace : List ReceiveCall) (out : LoopOut σ),
    purge_dlq_loop recv b fuel s total trace = some out →
    out.ended = DrainEnd.emptyBatch := by
  intro fuel
  induction fuel with
  | zero => intro s total trace out h; cases h
  | succ n ih =>
    intro s total trace out h
    simp only [purge_dlq_loop] at h
    split at h
    · cases h; rfl
    · exact ih _ _ _ _ h

/-- On the deterministic queue, a dead-letter drain with positive batch
size and enough fuel deletes everything, ending on the empty batch with
an empty queue left behind. -/
theorem dlq_loop_det_drains (b : Int) (hb : 1 ≤ b) :
    ∀ (fuel q total : Nat) (trace : List ReceiveCall), q < fuel →
    ∃ out : LoopOut Nat, purge_dlq_loop queueReceive b fuel q total trace = some out ∧
      out.total = total + q ∧ out.state = 0 := by
  intro fuel
  induction fuel with
  | zero => intro q total trace h; omega
  | succ n ih =>
    intro q total trace h
    by_cases hq : q = 0
    · subst hq
      refine ⟨⟨total, trace ++ [⟨total, b, 0⟩], 0, DrainEnd.emptyBatch⟩, ?_, ?_, rfl⟩
      · simp [purge_dlq_loop, queueReceive]
      · show total = total + 0
        omega
    · simp only [purge_dlq_loop, queueReceive]
      rw [if_neg (by omega : ¬ min b.toNat q = 0)]
      obtain ⟨out, h1, h2, h3⟩ := ih (q - min b.toNat q) (total + min b.toNat q) _ (by omega)
      exact ⟨out, h1, by omega, h3⟩

/-- The final queue state of any terminated dead-letter drain on the
deterministic queue yields nothing on a further receive. -/
theorem dlq_loop_det_final_state (b : Int) :
    ∀ (fuel q total : Nat) (trace : List ReceiveCall) (out : LoopOut Nat),
    purge_dlq_loop queueReceive b fuel q total trace = some out →
    min b.toNat out.state = 0 := by
  intro fuel
  induction fuel with
  | zero => intro q total trace out h; cases h
  | succ n ih =>
    intro q total trace out h
    simp only [purge_dlq_loop, queueReceive] at h
    split at h
    · rename_i hk
      cases h
      show min b.toNat (q - min b.toNat q) = 0
      omega
    · exact ih _ _ _ _ h

/-- A dead-letter drain started on a queue state that yields nothing
stops at once with zero deletions. -/
theorem dlq_loop_stuck (b : Int) (q0 : Nat) (h : min b.toNat q0 = 0) :
    ∀ fuel : Nat, 1 ≤ fuel →
    purge_dlq_loop queueReceive b fuel q0 0 []
      = some ⟨0, [⟨0, b, 0⟩], q0, DrainEnd.emptyBatch⟩ := by
  intro fuel hf
  obtain ⟨m, rfl⟩ : ∃ m, fuel = m + 1 := ⟨fuel - 1, by omega⟩
  simp [purge_dlq_loop, queueReceive, h]

/-- An active drain that terminated on an empty batch over the
deterministic queue leaves the queue empty. -/
theorem active_loop_det_empty_state (b : Int) (limit : Option Int) :
    ∀ (fuel q total : Nat) (trace : List ReceiveCall) (out : LoopOut Nat),
    purge_active_loop queueReceive b limit fuel q total trace = some out →
    out.ended = DrainEnd.emptyBatch → out.state = 0 := by
  intro fuel
  induction fuel with
  | zero => intro q total trace out h he; cases h
  | succ n ih =>
    intro q total trace out h he
    simp only [purge_active_loop, queueReceive] at h
    rcases Bool.eq_false_or_eq_true (pyTruthy limit) with hb | hb
    · simp only [hb] at h
      norm_num at h
      split at h
      · cases h; cases he
      · split at h
        · cases h; cases he
        · rename_i hbatch hk
          split at h
          · cases h
            simp only []
            omega
          · exact ih _ _ _ _ h he
    · simp only [hb] at h
      norm_num at h
      split at h
      · cases h; cases he
      · rename_i hbatch
        split at h
        · cases h
          simp only []
          omega
        · exact ih _ _ _ _ h he

/-- An active drain started on the empty deterministic queue deletes
nothing, whatever the limit and batch size. -/
theorem active_loop_from_empty (b : Int) (limit : Option Int) :
    ∀ fuel : Nat, 1 ≤ fuel → ∃ out : LoopOut Nat,
    purge_active_loop queueReceive b limit fuel 0 0 [] = some out ∧ out.total = 0 := by
  intro fuel hf
  obtain ⟨m, rfl⟩ : ∃ m, fuel = m + 1 := ⟨fuel - 1, by omega⟩
  by_cases hc1 : pyTruthy limit = true ∧ limit.getD 0 ≤ (((0 : Nat)) : Int)
  · refine ⟨⟨0, [], 0, DrainEnd.limitReached⟩, ?_, rfl⟩
    simp only [purge_active_loop]
    rw [if_pos hc1]
  · simp only [purge_active_loop, queueReceive]
    rw [if_neg hc1, Nat.min_zero]
    by_cases hb0 : (if pyTruthy limit = false then b
        else min b (limit.getD 0 - (((0 : Nat)) : Int))) ≤ 0
    · rw [if_pos hb0]
      exact ⟨_, rfl, rfl⟩
    · rw [if_neg hb0, if_pos rfl]
      exact ⟨_, rfl, rfl⟩

/-! ## Claim theorems -/

/-- C1 counterexample: with `limit = 0`, batch size 2 and an active
queue holding 3 messages, the drain deletes all 3 messages and issues
3 receive calls — refuting the claim that `limit = 0` yields
`totalDeleted = 0` with no batch receive call. -/
theorem C1_counterexample :
    (purge_active_loop queueReceive 2 (some 0) 10 3 0 []).map LoopOut.total ≠ some 0 ∧
    (purge_active_loop queueReceive 2 (some 0) 10 3 0 []).map (fun o => o.trace.length) ≠ some 0 ∧
    (purge_active_loop queueReceive 2 (some 0) 10 3 0 []).map LoopOut.total = some 3 := by
  decide

/-- C1 amended: `limit = 0` is falsy at both truthiness tests of
`purge_active` (lines 153 and 156), so the drain behaves exactly as an
unlimited drain — it does not delete nothing, and it does issue receive
calls whenever an unlimited drain would. -/
theorem C1_zero_limit_behaves_as_no_limit {σ : Type} (recv : σ → Int → Nat × σ)
    (b : Int) (fuel : Nat) (s : σ) (total : Nat) (trace : List ReceiveCall) :
    purge_active_loop recv b (some 0) fuel s total trace
      = purge_active_loop recv b none fuel s total trace :=
  active_loop_zero_eq_none recv b fuel s total trace

/-- C10: for every negative limit the first truthiness-guarded check of
line 153 fires immediately (a negative int is truthy and `0 ≥ limit`),
so the loop stops on its first iteration with no receive call and
`totalDeleted = 0`; by contrast `limit = 0` does issue receive calls. -/
theorem C10_negative_limit_stops_immediately :
    (∀ {σ : Type} (recv : σ → Int → Nat × σ) (b l : Int), l < 0 →
      ∀ fuel : Nat, 1 ≤ fuel → ∀ s : σ,
      purge_active_loop recv b (some l) fuel s 0 []
        = some ⟨0, [], s, DrainEnd.limitReached⟩) ∧
    (purge_active_loop queueReceive 2 (some 0) 10 3 0 []).map (fun o => o.trace.length)
      = some 3 := by
  constructor
  · intro σ recv b l hl fuel hf s
    obtain ⟨m, rfl⟩ : ∃ m, fuel = m + 1 := ⟨fuel - 1, by omega⟩
    have hc : pyTruthy (some l) = true ∧ (some l).getD 0 ≤ ((0 : Nat) : Int) := by
      refine ⟨?_, ?_⟩
      · simp only [pyTruthy, bne_iff_ne, ne_eq]
        omega
      · simp only [Option.getD, Nat.cast_zero]
        omega
    rw [purge_active_loop, if_pos hc]
  · decide

/-- C10 witness at limit -1, one unit of fuel, queue state 5. -/
theorem C10_witness :
    purge_active_loop queueReceive 2 (some (-1)) 1 (5 : Nat) 0 []
      = some ⟨0, [], 5, DrainEnd.limitReached⟩ :=
  C10_negative_limit_stops_immediately.1 queueReceive 2 (-1) (by decide) 1 (by decide) 5

/-- C4: every receive call of a completed active drain requested exactly
`min(batchSize, limit - totalDeleted)` when the limit is active (truthy)
and `batchSize` otherwise, where `totalDeleted` is the running total
before the call. -/
theorem C4_request_size {σ : Type} (recv : σ → Int → Nat × σ) (b : Int)
    (limit : Option Int) (fuel : Nat) (s : σ) (out : LoopOut σ)
    (h : purge_active_loop recv b limit fuel s 0 [] = some out) :
    ∀ e ∈ out.trace, e.requested = if pyTruthy limit = true
        then min b (limit.getD 0 - (e.totalBefore : Int)) else b :=
  active_loop_trace_requested recv b limit fuel s 0 [] out (by simp) h

/-- C4 witness: the one receive call of a limit-7 drain over a
10-message queue requested min(1000, 7 - 0) = 7. -/
theorem C4_witness :
    (⟨0, 7, 7⟩ : ReceiveCall).requested = if pyTruthy (some 7) = true
        then min 1000 ((some (7 : Int)).getD 0 - (((⟨0, 7, 7⟩ : ReceiveCall).totalBefore : Nat) : Int))
        else 1000 :=
  C4_request_size queueReceive 1000 (some 7) 8 (10 : Nat)
    ⟨7, [⟨0, 7, 7⟩], 3, DrainEnd.limitReached⟩ (by decide) ⟨0, 7, 7⟩ (by decide)

/-- C5: when both a connection string and a namespace identity
configuration are present, connection resolution uses the connection
string: the result is independent of the namespace setting, every
successful resolution is in SAS mode with a log line starting
`Auth: SAS`, and on the dead-letter script additionally no credential
construction is attempted.  Holds for `purge.py:get_client` and
`purge_dlq.py:get_client` alike. -/
theorem C5_connstr_precedence (cs : String) (hcs : cs ≠ "") (nsF : Option String) :
    (get_client ⟨some cs, nsF⟩ = get_client ⟨some cs, none⟩) ∧
    (∀ mode log, get_client ⟨some cs, nsF⟩ = Except.ok (mode, log) →
      mode = AuthMode.sas ∧ startsWithL log.data "Auth: SAS".data = true) ∧
    (∀ useAad dco useAad' dco',
      dlq_get_client ⟨some cs, nsF, useAad, dco⟩ = dlq_get_client ⟨some cs, none, useAad', dco'⟩) ∧
    (∀ useAad dco mode log,
      (dlq_get_client ⟨some cs, nsF, useAad, dco⟩).1 = Except.ok (mode, log) →
      mode = AuthMode.sas ∧ startsWithL log.data "Auth: SAS".data = true ∧
      (dlq_get_client ⟨some cs, nsF, useAad, dco⟩).2 = []) := by
  have ht : strTruthy (some cs) = true := by simp [strTruthy, hcs]
  refine ⟨?_, ?_, ?_, ?_⟩
  · simp [get_client, ht]
  · intro mode log hok
    simp only [get_client, ht, if_true, Option.getD] at hok
    rcases hx : extract_namespace_from_connstr cs with e | ns <;> rw [hx] at hok
    · cases hok
    · rcases hok with ⟨rfl, rfl⟩
      refine ⟨rfl, ?_⟩
      rw [String.data_append]
      exact startsWithL_append _ _ _ (by decide)
  · intro useAad dco useAad' dco'
    rcases hx : extract_namespace_from_connstr cs with e | ns <;> simp [dlq_get_client, ht, hx]
  · intro useAad dco mode log hok
    rcases hx : extract_namespace_from_connstr cs with e | ns
    · simp [dlq_get_client, ht, hx] at hok
    · simp [dlq_get_client, ht, hx] at hok
      rcases hok with ⟨rfl, rfl⟩
      refine ⟨rfl, ?_, by simp [dlq_get_client, ht, hx]⟩
      rw [String.data_append]
      exact startsWithL_append _ _ _ (by decide)

/-- C5 witness at a concrete well-formed connection string with a
namespace also configured. -/
theorem C5_witness :
    get_client ⟨some "Endpoint=sb://myns.servicebus.windows.net/;SharedAccessKey=k", some "other"⟩
      = Except.ok (AuthMode.sas, "Auth: SAS | Namespace: myns") ∧
    AuthMode.sas = AuthMode.sas ∧
    startsWithL "Auth: SAS | Namespace: myns".data "Auth: SAS".data = true := by
  have h := (C5_connstr_precedence
    "Endpoint=sb://myns.servicebus.windows.net/;SharedAccessKey=k" (by decide)
    (some "other")).2.1 AuthMode.sas "Auth: SAS | Namespace: myns" (by decide)
  exact ⟨by decide, h⟩

/-- C6: a truthy connection string with no `Endpoint=` segment makes
`extract_namespace_from_connstr` raise, so `get_client` fails with the
malformed-connection-string error and both full drains abort with that
error, producing no loop output (no client, no deletion). -/
theorem C6_malformed_connstr (cfg : PurgeConfig) (ht : strTruthy cfg.connStr = true)
    (hno : ((pySplitStr (cfg.connStr.getD "") ';').find?
      (fun part => startsWithL (pyLower (pyStrip part)).data "endpoint=".data)) = none) :
    get_client cfg = Except.error PurgeError.malformedConnectionString ∧
    (∀ (σ : Type) (recv : σ → Int → Nat × σ) (b : Int) (t sub : String)
      (limit : Option Int) (fuel : Nat) (s : σ),
      purge_active_run cfg recv b t sub limit fuel s
        = Except.error PurgeError.malformedConnectionString) ∧
    (∀ (σ : Type) (recv : σ → Int → Nat × σ) (b : Int) (t sub : String) (fuel : Nat) (s : σ),
      purge_dlq_run cfg recv b t sub fuel s
        = Except.error PurgeError.malformedConnectionString) := by
  have hx : extract_namespace_from_connstr (cfg.connStr.getD "")
      = Except.error PurgeError.malformedConnectionString := by
    rw [extract_namespace_from_connstr, hno]
  have hlabel : namespace_label cfg = Except.error PurgeError.malformedConnectionString := by
    rw [namespace_label, if_pos ht, hx]
  have hclient : get_client cfg = Except.error PurgeError.malformedConnectionString := by
    rw [get_client, if_pos ht, hx]
  refine ⟨hclient, ?_, ?_⟩
  · intro σ recv b t sub limit fuel s
    rw [purge_active_run, hlabel]
  · intro σ recv b t sub fuel s
    rw [purge_dlq_run, hlabel]

/-- C6 witness: a connection string holding only key material. -/
theorem C6_witness :
    get_client ⟨some "SharedAccessKeyName=n;SharedAccessKey=k", none⟩
      = Except.error PurgeError.malformedConnectionString ∧
    purge_active_run ⟨some "SharedAccessKeyName=n;SharedAccessKey=k", none⟩
        queueReceive 1000 "t" "sub" none 10 (5 : Nat)
      = Except.error PurgeError.malformedConnectionString := by
  have h := C6_malformed_connstr ⟨some "SharedAccessKeyName=n;SharedAccessKey=k", none⟩
    (by decide) (by decide)
  exact ⟨h.1, h.2.1 Nat queueReceive 1000 "t" "sub" none 10 5⟩

/-- C9 counterexample: with neither a connection string nor a namespace
configured, `namespace_label` fails with the missing-namespace error —
a failure path distinct from propagating the malformed-connection-string
error, refuting the claim that the latter is its only failure path. -/
theorem C9_counterexample :
    namespace_label ⟨none, none⟩ = Except.error PurgeError.missingNamespace ∧
    PurgeError.missingNamespace ≠ PurgeError.malformedConnectionString := by
  decide

/-- C9 amended: `namespace_label` is a pure function of the
configuration whose failure paths are exactly those of connection
resolution: it fails with an error `e` precisely when `get_client`
fails with that same error `e` (malformed connection string, or
missing namespace on the identity path). -/
theorem C9_label_errors_match_resolution (cfg : PurgeConfig) (e : PurgeError) :
    namespace_label cfg = Except.error e ↔ get_client cfg = Except.error e := by
  rcases Bool.eq_false_or_eq_true (strTruthy cfg.connStr) with ht | ht
  · rcases hx : extract_namespace_from_connstr (cfg.connStr.getD "") with e' | ns <;>
      simp [namespace_label, get_client, ht, hx]
  · rcases hf : to_fqdn (pyOrStr cfg.namespaceFqdn "") with e' | fqdn <;>
      simp [namespace_label, get_client, ht, hf]

/-- C9 witness: the equivalence instantiated at the empty configuration
and the missing-namespace error. -/
theorem C9_witness :
    get_client ⟨none, none⟩ = Except.error PurgeError.missingNamespace :=
  (C9_label_errors_match_resolution ⟨none, none⟩ PurgeError.missingNamespace).mp (by decide)

/-- C7: on the dead-letter script's identity path the non-interactive
credential (browser flow excluded) is always attempted first, the
interactive browser credential is attempted only when the first
attempt fails, and when the identity module is unavailable (and no
connection string is set) resolution fails fast with the
auth-unavailable error before attempting any credential. -/
theorem C7_credential_fallback (env : DlqEnv) :
    ((dlq_get_client env).2 ≠ [] →
      (dlq_get_client env).2.head? = some CredAttempt.defaultNoBrowser) ∧
    (CredAttempt.interactiveBrowser ∈ (dlq_get_client env).2 → env.defaultCredOk = false) ∧
    (strTruthy env.connStr = false → env.useAad = false →
      dlq_get_client env = (Except.error PurgeError.authUnavailable, [])) := by
  rcases env with ⟨cs, nsF, useAad, dco⟩
  rcases Bool.eq_false_or_eq_true (strTruthy cs) with ht | ht
  · rcases hx : extract_namespace_from_connstr (cs.getD "") with e | ns <;>
      simp [dlq_get_client, ht, hx]
  · rcases Bool.eq_false_or_eq_true useAad with hu | hu
    · rcases hf : to_fqdn (pyOrStr nsF "") with e | fqdn <;>
        rcases Bool.eq_false_or_eq_true dco with hd | hd <;>
          simp [dlq_get_client, ht, hu, hd, hf]
    · simp [dlq_get_client, ht, hu]

/-- C7 witness: with no connection string, identity support available
and a failing non-interactive credential, the browser credential is the
second of the two attempts; with identity support unavailable the run
fails with the auth-unavailable error. -/
theorem C7_witness :
    (dlq_get_client ⟨none, some "ns", true, false⟩).2.head? = some CredAttempt.defaultNoBrowser ∧
    ((false : Bool) = false) ∧
    dlq_get_client ⟨none, some "ns", false, false⟩ = (Except.error PurgeError.authUnavailable, []) := by
  refine ⟨(C7_credential_fallback ⟨none, some "ns", true, false⟩).1 (by decide),
    (C7_credential_fallback ⟨none, some "ns", true, false⟩).2.1 (by decide),
    (C7_credential_fallback ⟨none, some "ns", false, false⟩).2.2 (by decide) (by decide)⟩

/-- C2: for every positive limit L, a terminated active drain (over any
receiver that never delivers more than requested) stops with
`totalDeleted ≤ L`; and over the deterministic queue holding at least L
messages it stops with `totalDeleted = L` exactly, at the limit break. -/
theorem C2_limit_reached :
    (∀ {σ : Type} (recv : σ → Int → Nat × σ),
      (∀ s b, (recv s b).1 ≤ b.toNat) → ∀ (b L : Int), 0 < L →
      ∀ (fuel : Nat) (s : σ) (out : LoopOut σ),
      purge_active_loop recv b (some L) fuel s 0 [] = some out →
      (out.total : Int) ≤ L) ∧
    (∀ (b L : Int), 1 ≤ b → 0 < L → ∀ q : Nat, L.toNat ≤ q →
      ∀ fuel : Nat, L.toNat < fuel →
      ∃ out : LoopOut Nat,
        purge_active_loop queueReceive b (some L) fuel q 0 [] = some out ∧
        out.total = L.toNat ∧ out.ended = DrainEnd.limitReached) := by
  constructor
  · intro σ recv hrecv b L hL fuel s out h
    exact active_loop_le_limit recv hrecv b L hL fuel s 0 [] (by omega) out h
  · intro b L hb hL q hq fuel hfuel
    exact active_loop_det_reaches_limit b L hb hL fuel q 0 [] (by omega) (by omega) (by omega)

/-- C2 witness: limit 7 over a 10-message queue with batch size 1000
stops at exactly 7 deletions (and in particular at most 7). -/
theorem C2_witness :
    (((7 : Nat)) : Int) ≤ 7 ∧
    (purge_active_loop queueReceive 1000 (some 7) 8 (10 : Nat) 0 []).isSome = true := by
  constructor
  · exact C2_limit_reached.1 queueReceive queueReceive_le 1000 7 (by decide) 8 (10 : Nat)
      ⟨7, [⟨0, 7, 7⟩], 3, DrainEnd.limitReached⟩ (by decide)
  · obtain ⟨out, h1, -, -⟩ :=
      C2_limit_reached.2 1000 7 (by decide) (by decide) 10 (by decide) 8 (by decide)
    rw [h1]
    rfl

/-- C3: the dead-letter dispatch path is identical for every parsed
`--limit` value (ignored, not rejected); a terminated dead-letter drain
always ends because an empty batch was observed; and with positive
batch size and enough fuel it deletes everything in the deterministic
queue. -/
theorem C3_dlq_ignores_limit :
    (∀ {σ : Type} (cfg : PurgeConfig) (recv : σ → Int → Nat × σ) (b : Int)
      (t sub : String) (l₁ l₂ : Option Int) (fuel : Nat) (s : σ),
      main_dispatch cfg recv b t sub false l₁ fuel s
        = main_dispatch cfg recv b t sub false l₂ fuel s) ∧
    (∀ {σ : Type} (recv : σ → Int → Nat × σ) (b : Int) (fuel : Nat) (s : σ)
      (total : Nat) (trace : List ReceiveCall) (out : LoopOut σ),
      purge_dlq_loop recv b fuel s total trace = some out →
      out.ended = DrainEnd.emptyBatch) ∧
    (∀ b : Int, 1 ≤ b → ∀ q fuel : Nat, q < fuel →
      ∃ out : LoopOut Nat,
        purge_dlq_loop queueReceive b fuel q 0 [] = some out ∧ out.total = q) := by
  refine ⟨?_, ?_, ?_⟩
  · intro σ cfg recv b t sub l₁ l₂ fuel s
    rfl
  · intro σ recv b fuel s total trace out h
    exact dlq_loop_ends_empty recv b fuel s total trace out h
  · intro b hb q fuel hfuel
    obtain ⟨out, h1, h2, -⟩ := dlq_loop_det_drains b hb fuel q 0 [] hfuel
    exact ⟨out, h1, by omega⟩

/-- C3 witness: the dead-letter dispatch with limits 0 and 99 agree on
a concrete run, and a 5-message queue is fully drained. -/
theorem C3_witness :
    main_dispatch ⟨none, some "ns"⟩ queueReceive 2 "t" "sub" false (some 0) 10 (5 : Nat)
      = main_dispatch ⟨none, some "ns"⟩ queueReceive 2 "t" "sub" false (some 99) 10 (5 : Nat) ∧
    (purge_dlq_loop queueReceive 2 10 (5 : Nat) 0 []).map LoopOut.total = some 5 := by
  constructor
  · exact C3_dlq_ignores_limit.1 ⟨none, some "ns"⟩ queueReceive 2 "t" "sub"
      (some 0) (some 99) 10 5
  · obtain ⟨out, h1, h2⟩ := C3_dlq_ignores_limit.2.2 2 (by decide) 5 10 (by decide)
    rw [h1]
    simp [h2]

/-- C8: exhaustion is idempotent on the deterministic queue.  An active
drain that terminated on an empty batch leaves a state from which a
second drain (with the same parameters) terminates with zero deletions;
a terminated dead-letter drain likewise leaves a state from which a
second dead-letter drain terminates with zero deletions. -/
theorem C8_exhaustion_idempotent :
    (∀ (b : Int) (limit : Option Int) (fuel q total : Nat) (trace : List ReceiveCall)
      (out : LoopOut Nat),
      purge_active_loop queueReceive b limit fuel q total trace = some out →
      out.ended = DrainEnd.emptyBatch →
      ∀ fuel' : Nat, 1 ≤ fuel' → ∃ out' : LoopOut Nat,
        purge_active_loop queueReceive b limit fuel' out.state 0 [] = some out' ∧
        out'.total = 0) ∧
    (∀ (b : Int) (fuel q total : Nat) (trace : List ReceiveCall) (out : LoopOut Nat),
      purge_dlq_loop queueReceive b fuel q total trace = some out →
      ∀ fuel' : Nat, 1 ≤ fuel' →
        purge_dlq_loop queueReceive b fuel' out.state 0 []
          = some ⟨0, [⟨0, b, 0⟩], out.state, DrainEnd.emptyBatch⟩) := by
  constructor
  · intro b limit fuel q total trace out h he fuel' hf
    have hs := active_loop_det_empty_state b limit fuel q total trace out h he
    rw [hs]
    exact active_loop_from_empty b limit fuel' hf
  · intro b fuel q total trace out h fuel' hf
    exact dlq_loop_stuck b out.state (dlq_loop_det_final_state b fuel q total trace out h)
      fuel' hf

/-- C8 witness: draining 3 messages with batch size 2 ends on an empty
batch; the immediate re-run deletes nothing, in both modes. -/
theorem C8_witness :
    (purge_active_loop queueReceive 2 none 1 (0 : Nat) 0 []).map LoopOut.total = some 0 ∧
    purge_dlq_loop queueReceive 2 1 (0 : Nat) 0 []
      = some ⟨0, [⟨0, 2, 0⟩], 0, DrainEnd.emptyBatch⟩ := by
  constructor
  · obtain ⟨out', h1, h2⟩ := C8_exhaustion_idempotent.1 2 none 10 3 0 []
      ⟨3, [⟨0, 2, 2⟩, ⟨2, 2, 1⟩, ⟨3, 2, 0⟩], 0, DrainEnd.emptyBatch⟩ (by decide) (by decide)
      1 (by decide)
    have h1x : purge_active_loop queueReceive 2 none 1 (0 : Nat) 0 [] = some out' := h1
    rw [h1x]
    simp [h2]
  · exact C8_exhaustion_idempotent.2 2 10 3 0 []
      ⟨3, [⟨0, 2, 2⟩, ⟨2, 2, 1⟩, ⟨3, 2, 0⟩], 0, DrainEnd.emptyBatch⟩ (by decide) 1 (by decide)

end Purge
